import Mathlib

/-!
Verification of the Trinity Mind reasoning engine (`trinity_core.py`).

Shallow embedding conventions:
- Python strings are modelled as `List Char` (abbreviated `Str`); Python's
  slice `s[:200]` is `List.take 200` and f-string interpolation is list append.
- Sampling temperatures are modelled as rationals (`ℚ`).
- A provider object's `complete` method is modelled as an explicit
  state-passing function `Str → ℚ → σ → Except ε (Str × σ)`: the state type
  `σ` carries whatever mutable state a concrete Python provider holds, and
  `Except ε` models a method call that may raise.
- The pipeline functions additionally return the list of provider invocations
  they performed (`List ProviderCall`), recording the prompt and temperature
  of each `provider.complete` call in order; this instrumentation is the
  observation needed to state the claims about call counts and per-stage
  sampling parameters, and does not alter the computation.
-/

abbrev Str := List Char

/-- GEN template of `trinity_core.py`: `"Topic: {topic}\nGoal: {goal}\nConstraints: {constraints}\nGenerate 5 approaches."`. -/
def GEN_TEMPLATE (topic goal constraints : Str) : Str :=
  "Topic: ".data ++ topic ++ "\nGoal: ".data ++ goal ++
    "\nConstraints: ".data ++ constraints ++ "\nGenerate 5 approaches.".data

/-- OPP template: `"Oppose the following:\n{generated}\nList tensions, risks, and the top 2 approaches."`. -/
def OPP_TEMPLATE (generated : Str) : Str :=
  "Oppose the following:\n".data ++ generated ++
    "\nList tensions, risks, and the top 2 approaches.".data

/-- SYN template: `"Fuse these perspectives:\n{opposed}\nReturn a final plan, rationale, metrics, and risks."`. -/
def SYN_TEMPLATE (opposed : Str) : Str :=
  "Fuse these perspectives:\n".data ++ opposed ++
    "\nReturn a final plan, rationale, metrics, and risks.".data

/-- Default for the `goal` parameter of `run_trinity_loop` and `TrinityConfig`. -/
def DEFAULT_GOAL : Str := "clarity".data

/-- Default for the `constraints` parameter of `run_trinity_loop` and `TrinityConfig`. -/
def DEFAULT_CONSTRAINTS : Str := "realistic".data

/-- One invocation of `provider.complete` as performed by the pipeline: the
pipeline passes the prompt and a keyword `temperature` and never passes
`max_tokens` (the provider's own default applies). -/
structure ProviderCall where
  prompt : Str
  temperature : ℚ
deriving DecidableEq

/-- An `LLMProvider` as the pipeline sees it: an object with a `complete`
method, possibly holding mutable internal state of type `σ`, whose call can
raise an exception of type `ε`. -/
structure Provider (σ ε : Type) where
  complete : Str → ℚ → σ → Except ε (Str × σ)

/-- Python `str.strip`: drop leading and trailing whitespace. -/
def pyStrip (s : Str) : Str :=
  ((s.dropWhile Char.isWhitespace).reverse.dropWhile Char.isWhitespace).reverse

/-- Environment observed by the `OpenAIProvider` constructor: `sdkOk` records
whether `import openai` and `openai.OpenAI()` succeeded (the `_ok` flag, set
once at construction, together with `_client`), and `backendComplete` is the
live Chat Completions backend as an oracle from prompt, temperature and
`max_tokens` to the raw message content (`Except` because a live call may
raise). -/
structure Env (ε : Type) where
  sdkOk : Bool
  backendComplete : Str → ℚ → Nat → Except ε Str

/-- Fixed header of a degraded (offline) completion: `"[OFFLINE COMPLETION]"`. -/
def OFFLINE_HEADER : Str := "[OFFLINE COMPLETION]".data

/-- Body of `OpenAIProvider.complete`: when `_ok` is false (or the client is
absent, which the constructor makes equivalent), return the offline marker
followed by the first 200 characters of the prompt; otherwise call the live
backend and strip the returned content. -/
def OpenAIProvider.complete {ε : Type} (env : Env ε) (prompt : Str)
    (temperature : ℚ) (max_tokens : Nat) : Except ε Str :=
  if env.sdkOk then (env.backendComplete prompt temperature max_tokens).map pyStrip
  else Except.ok (OFFLINE_HEADER ++ "\nPrompt: ".data ++ prompt.take 200)

/-- An `OpenAIProvider` instance packaged as a pipeline provider: it is
stateless (state `Unit`) and, when called without `max_tokens`, uses the
declared default `800`. -/
def defaultProvider {ε : Type} (env : Env ε) : Provider Unit ε :=
  ⟨fun prompt temperature s =>
    (OpenAIProvider.complete env prompt temperature 800).map (fun out => (out, s))⟩

/-- Result of a Trinity pass, holding the raw completion text of each stage. -/
structure ReasoningResult where
  generate : Str
  oppose : Str
  synthesize : Str
deriving DecidableEq

/-- Dict literal returned at the end of `run_trinity_loop`:
`{"generate": generated, "oppose": opposed, "synthesize": synthesized}`,
modelled as an association list to preserve the fixed key order. -/
def resultDict (r : ReasoningResult) : List (Str × Str) :=
  [("generate".data, r.generate), ("oppose".data, r.oppose),
   ("synthesize".data, r.synthesize)]

/-- Stage chaining of `run_trinity_loop` after provider resolution: render the
GEN prompt and complete it at `temperature`; feed the output into the OPP
prompt and complete it at `temperature`; feed that output into the SYN prompt
and complete it at `max 0 (temperature - 0.2)`.  A raising call aborts the
remaining stages (`Except.error`).  Besides the Python return value the
function yields the list of provider invocations performed and the provider
state after the last completed call. -/
def run_stages {σ ε : Type} (topic goal constraints : Str) (P : Provider σ ε)
    (temperature : ℚ) (s0 : σ) :
    Except ε ReasoningResult × List ProviderCall × σ :=
  let gen_prompt := GEN_TEMPLATE topic goal constraints
  match P.complete gen_prompt temperature s0 with
  | Except.error e => (Except.error e, [⟨gen_prompt, temperature⟩], s0)
  | Except.ok (generated, s1) =>
    let opp_prompt := OPP_TEMPLATE generated
    match P.complete opp_prompt temperature s1 with
    | Except.error e =>
        (Except.error e, [⟨gen_prompt, temperature⟩, ⟨opp_prompt, temperature⟩], s1)
    | Except.ok (opposed, s2) =>
      let syn_prompt := SYN_TEMPLATE opposed
      let syn_temp := max 0 (temperature - 0.2)
      match P.complete syn_prompt syn_temp s2 with
      | Except.error e =>
          (Except.error e,
           [⟨gen_prompt, temperature⟩, ⟨opp_prompt, temperature⟩,
            ⟨syn_prompt, syn_temp⟩], s2)
      | Except.ok (synthesized, s3) =>
          (Except.ok ⟨generated, opposed, synthesized⟩,
           [⟨gen_prompt, temperature⟩, ⟨opp_prompt, temperature⟩,
            ⟨syn_prompt, syn_temp⟩], s3)

/-- A provider argument as passed to `run_trinity_loop`: a concrete provider
object together with its state type and current state. -/
structure ProviderInst (ε : Type) where
  State : Type
  prov : Provider State ε
  init : State

/-- Body of `run_trinity_loop(topic, goal, constraints, *, provider, temperature)`:
`provider = provider or OpenAIProvider()` (a provider object is always truthy,
so `or` means: use the given provider when one is supplied, otherwise construct
a fresh `OpenAIProvider` in the ambient environment), run the three stages,
and return the result dict.  The second component records the provider
invocations performed. -/
def run_trinity_loop {ε : Type} (env : Env ε) (topic goal constraints : Str)
    (provider : Option (ProviderInst ε)) (temperature : ℚ) :
    Except ε (List (Str × Str)) × List ProviderCall :=
  match provider with
  | none =>
      let out := run_stages topic goal constraints (defaultProvider env) temperature ()
      (out.1.map resultDict, out.2.1)
  | some inst =>
      let out := run_stages topic goal constraints inst.prov temperature inst.init
      (out.1.map resultDict, out.2.1)

/-- Input configuration dataclass for a Trinity reasoning pass. -/
structure TrinityConfig where
  topic : Str
  goal : Str
  constraints : Str

/-- Body of `boot_moonlander_mode`: delegate to `run_trinity_loop` with the
fields of the config. -/
def boot_moonlander_mode {ε : Type} (env : Env ε) (config : TrinityConfig)
    (provider : Option (ProviderInst ε)) (temperature : ℚ) :
    Except ε (List (Str × Str)) × List ProviderCall :=
  run_trinity_loop env config.topic config.goal config.constraints provider temperature

/-- Body of `run_moonlander_cli`: delegate to `boot_moonlander_mode`. -/
def run_moonlander_cli {ε : Type} (env : Env ε) (config : TrinityConfig)
    (provider : Option (ProviderInst ε)) (temperature : ℚ) :
    Except ε (List (Str × Str)) × List ProviderCall :=
  boot_moonlander_mode env config provider temperature

/-! Test doubles used in the claims and witnesses. -/

/-- Stateless stub provider that echoes its prompt and never raises. -/
def echoP {ε : Type} : Provider Unit ε :=
  ⟨fun p _ s => Except.ok (p, s)⟩

/-- Stub provider that echoes its prompt and counts its invocations in its
state; its output is a pure function of the prompt although its state mutates. -/
def countEcho {ε : Type} : Provider Nat ε :=
  ⟨fun p _ n => Except.ok (p, n + 1)⟩

/-- Stub provider that raises on its `k`-th invocation (counting from 1) and
echoes its prompt on every other one; state is the number of calls made. -/
def failAt (k : Nat) : Provider Nat Unit :=
  ⟨fun p _ n => if n + 1 = k then Except.error () else Except.ok (p, n + 1)⟩

/-- Observable outcome of one provider call: the returned completion string or
the raised exception, ignoring the provider's internal state. -/
def outcome {σ ε : Type} (x : Except ε (Str × σ)) : Except ε Str :=
  match x with
  | Except.error e => Except.error e
  | Except.ok (out, _) => Except.ok out

/-- Concrete degraded environment (SDK import failed), used in witnesses. -/
def offlineEnvU : Env Unit := ⟨false, fun _ _ _ => Except.ok []⟩

/-- Two consecutive `run_trinity_loop` invocations with identical inputs
against the same provider object: the second invocation starts from the
provider state left behind by the first.  Returns the pair of results. -/
def runTwice {σ ε : Type} (topic goal constraints : Str) (P : Provider σ ε)
    (temperature : ℚ) (s0 : σ) :
    Except ε ReasoningResult × Except ε ReasoningResult :=
  ((run_stages topic goal constraints P temperature s0).1,
   (run_stages topic goal constraints P temperature
      (run_stages topic goal constraints P temperature s0).2.2).1)

/-- C9: `boot_moonlander_mode` and `run_moonlander_cli` each return exactly the
result of `run_trinity_loop(config.topic, config.goal, config.constraints,
provider=p, temperature=t)`; the wrappers add no behavior of their own. -/
theorem C9_wrappers_add_no_behavior {ε : Type} (env : Env ε) (config : TrinityConfig)
    (provider : Option (ProviderInst ε)) (temperature : ℚ) :
    boot_moonlander_mode env config provider temperature =
      run_trinity_loop env config.topic config.goal config.constraints provider temperature ∧
    run_moonlander_cli env config provider temperature =
      run_trinity_loop env config.topic config.goal config.constraints provider temperature :=
  ⟨rfl, rfl⟩

/-- C10: in degraded mode (SDK unavailable at construction), the completion
returned by `OpenAIProvider.complete` depends only on the prompt, not on the
sampling parameters: any two (temperature, max_tokens) pairs give the same
string. -/
theorem C10_degraded_ignores_sampling {ε : Type}
    (backend : Str → ℚ → Nat → Except ε Str) (prompt : Str)
    (t1 t2 : ℚ) (m1 m2 : Nat) :
    OpenAIProvider.complete ⟨false, backend⟩ prompt t1 m1 =
      OpenAIProvider.complete ⟨false, backend⟩ prompt t2 m2 :=
  rfl

/-- C5: in degraded mode `OpenAIProvider.complete` does not raise: it returns
(for every prompt and sampling parameters) a string that begins with the fixed
offline marker and embeds exactly the first-200-character prefix of the input
prompt, whose length is at most 200. -/
theorem C5_degraded_completion_shape {ε : Type}
    (backend : Str → ℚ → Nat → Except ε Str) (prompt : Str)
    (temperature : ℚ) (max_tokens : Nat) :
    ∃ out : Str,
      OpenAIProvider.complete ⟨false, backend⟩ prompt temperature max_tokens =
        Except.ok out ∧
      OFFLINE_HEADER <+: out ∧
      out = OFFLINE_HEADER ++ "\nPrompt: ".data ++ prompt.take 200 ∧
      prompt.take 200 <+: prompt ∧ (prompt.take 200).length ≤ 200 := by
  refine ⟨_, rfl, ⟨"\nPrompt: ".data ++ prompt.take 200, ?_⟩, rfl, ?_, ?_⟩
  · simp
  · exact ⟨prompt.drop 200, by simp⟩
  · simp [List.length_take]

/-- C4: with the echo stub provider and any non-empty topic, the run succeeds
and each later stage's text contains the prior stage's full text as a
substring: `generate` is an infix of `oppose`, and `oppose` is an infix of
`synthesize`. -/
theorem C4_chaining {ε : Type} (topic : Str) (h : topic ≠ []) (goal constraints : Str)
    (temperature : ℚ) :
    ∃ r : ReasoningResult,
      (run_stages topic goal constraints (echoP : Provider Unit ε) temperature ()).1 =
        Except.ok r ∧
      r.generate <:+: r.oppose ∧ r.oppose <:+: r.synthesize := by
  refine ⟨_, rfl, ?_, ?_⟩
  · exact ⟨"Oppose the following:\n".data,
      "\nList tensions, risks, and the top 2 approaches.".data, rfl⟩
  · exact ⟨"Fuse these perspectives:\n".data,
      "\nReturn a final plan, rationale, metrics, and risks.".data, rfl⟩

/-- C4 witness at the concrete topic "AI". -/
theorem C4_chaining_witness :
    "AI".data ≠ ([] : Str) ∧
    ∃ r : ReasoningResult,
      (run_stages "AI".data DEFAULT_GOAL DEFAULT_CONSTRAINTS
          (echoP : Provider Unit Unit) (0.7 : ℚ) ()).1 = Except.ok r ∧
      r.generate <:+: r.oppose ∧ r.oppose <:+: r.synthesize :=
  ⟨by decide, C4_chaining "AI".data (by decide) DEFAULT_GOAL DEFAULT_CONSTRAINTS 0.7⟩

/-- C1 counterexample: calling `run_trinity_loop` with the empty topic and the
degraded default provider does not fail at all: it returns a result dict
(`Except.ok`) and performs three provider calls, contradicting the claim that
the run fails with `InvalidRequest` before any provider call (zero calls, no
result).  No topic validation and no `InvalidRequest` error exist in the code. -/
theorem C1_counterexample :
    (∃ d, (run_trinity_loop offlineEnvU [] DEFAULT_GOAL DEFAULT_CONSTRAINTS
        none (0.7 : ℚ)).1 = Except.ok d) ∧
    (run_trinity_loop offlineEnvU [] DEFAULT_GOAL DEFAULT_CONSTRAINTS
        none (0.7 : ℚ)).2.length = 3 :=
  ⟨⟨_, rfl⟩, rfl⟩

/-- C1 amended: `run_trinity_loop` performs no topic validation.  With
`topic = ""` and any provider whose `complete` always succeeds, the run
proceeds normally: it makes all three provider calls and returns a
`ReasoningResult` dict. -/
theorem C1_amended_no_topic_validation {σ ε : Type} (env : Env ε)
    (P : Provider σ ε) (s0 : σ)
    (htotal : ∀ p t s, ∃ out s2, P.complete p t s = Except.ok (out, s2))
    (goal constraints : Str) (temperature : ℚ) :
    (∃ d, (run_trinity_loop env [] goal constraints (some ⟨σ, P, s0⟩)
        temperature).1 = Except.ok d) ∧
    (run_trinity_loop env [] goal constraints (some ⟨σ, P, s0⟩)
        temperature).2.length = 3 := by
  obtain ⟨g, s1, h1⟩ := htotal (GEN_TEMPLATE [] goal constraints) temperature s0
  obtain ⟨o, s2, h2⟩ := htotal (OPP_TEMPLATE g) temperature s1
  obtain ⟨sy, s3, h3⟩ := htotal (SYN_TEMPLATE o) (max 0 (temperature - 0.2)) s2
  refine ⟨⟨resultDict ⟨g, o, sy⟩, ?_⟩, ?_⟩ <;>
    simp [run_trinity_loop, run_stages, h1, h2, h3, Except.map]

/-- C1 amended witness: the echo stub at the empty topic. -/
theorem C1_amended_no_topic_validation_witness :
    (∃ d, (run_trinity_loop offlineEnvU [] DEFAULT_GOAL DEFAULT_CONSTRAINTS
        (some ⟨Unit, echoP, ()⟩) (0.7 : ℚ)).1 = Except.ok d) ∧
    (run_trinity_loop offlineEnvU [] DEFAULT_GOAL DEFAULT_CONSTRAINTS
        (some ⟨Unit, echoP, ()⟩) (0.7 : ℚ)).2.length = 3 :=
  C1_amended_no_topic_validation offlineEnvU echoP ()
    (fun p _ s => ⟨p, s, rfl⟩) DEFAULT_GOAL DEFAULT_CONSTRAINTS 0.7

/-- C2 counterexample: the pipeline propagates the provider's bare exception
without any stage annotation.  A provider raising on its first invocation and
one raising on its second produce identical run outcomes (`Except.error ()`),
although the failing stages differ (one call vs. two calls were made), so the
propagated failure is not a `ProviderFailure` identifying the failed stage —
no such wrapper exists in the code. -/
theorem C2_counterexample :
    (run_stages "AI".data DEFAULT_GOAL DEFAULT_CONSTRAINTS (failAt 1) (0.7 : ℚ) 0).1 =
      (run_stages "AI".data DEFAULT_GOAL DEFAULT_CONSTRAINTS (failAt 2) (0.7 : ℚ) 0).1 ∧
    (run_stages "AI".data DEFAULT_GOAL DEFAULT_CONSTRAINTS (failAt 1) (0.7 : ℚ) 0).2.1.length = 1 ∧
    (run_stages "AI".data DEFAULT_GOAL DEFAULT_CONSTRAINTS (failAt 2) (0.7 : ℚ) 0).2.1.length = 2 :=
  ⟨rfl, rfl, rfl⟩

/-- C2 amended: a provider exception during stage 1, 2 or 3 aborts the
remaining stages — no further provider calls occur and no partial result is
returned — and the exception propagates to the caller unchanged (as the
provider's own exception `e`, with no stage annotation). -/
theorem C2_amended_abort_behavior {σ ε : Type} (P : Provider σ ε)
    (topic goal constraints : Str) (temperature : ℚ) (s0 : σ) (e : ε) :
    (P.complete (GEN_TEMPLATE topic goal constraints) temperature s0 = Except.error e →
      (run_stages topic goal constraints P temperature s0).1 = Except.error e ∧
      (run_stages topic goal constraints P temperature s0).2.1.length = 1) ∧
    (∀ g s1, P.complete (GEN_TEMPLATE topic goal constraints) temperature s0 = Except.ok (g, s1) →
      P.complete (OPP_TEMPLATE g) temperature s1 = Except.error e →
      (run_stages topic goal constraints P temperature s0).1 = Except.error e ∧
      (run_stages topic goal constraints P temperature s0).2.1.length = 2) ∧
    (∀ g s1 o s2, P.complete (GEN_TEMPLATE topic goal constraints) temperature s0 = Except.ok (g, s1) →
      P.complete (OPP_TEMPLATE g) temperature s1 = Except.ok (o, s2) →
      P.complete (SYN_TEMPLATE o) (max 0 (temperature - 0.2)) s2 = Except.error e →
      (run_stages topic goal constraints P temperature s0).1 = Except.error e ∧
      (run_stages topic goal constraints P temperature s0).2.1.length = 3) := by
  refine ⟨fun h1 => ?_, fun g s1 h1 h2 => ?_, fun g s1 o s2 h1 h2 h3 => ?_⟩
  · simp [run_stages, h1]
  · simp [run_stages, h1, h2]
  · simp [run_stages, h1, h2, h3]

/-- C2 amended witness: a stub raising on its second invocation fails the run
at the oppose stage with the bare exception after exactly two calls. -/
theorem C2_amended_abort_behavior_witness :
    ((failAt 2).complete (GEN_TEMPLATE "AI".data DEFAULT_GOAL DEFAULT_CONSTRAINTS)
        (0.7 : ℚ) 0 =
      Except.ok (GEN_TEMPLATE "AI".data DEFAULT_GOAL DEFAULT_CONSTRAINTS, 1)) ∧
    ((failAt 2).complete
        (OPP_TEMPLATE (GEN_TEMPLATE "AI".data DEFAULT_GOAL DEFAULT_CONSTRAINTS))
        (0.7 : ℚ) 1 = Except.error ()) ∧
    (run_stages "AI".data DEFAULT_GOAL DEFAULT_CONSTRAINTS (failAt 2) (0.7 : ℚ) 0).1 =
      Except.error () ∧
    (run_stages "AI".data DEFAULT_GOAL DEFAULT_CONSTRAINTS (failAt 2) (0.7 : ℚ) 0).2.1.length = 2 := by
  refine ⟨rfl, rfl, ?_⟩
  exact (C2_amended_abort_behavior (failAt 2) "AI".data DEFAULT_GOAL DEFAULT_CONSTRAINTS
    0.7 0 ()).2.1 (GEN_TEMPLATE "AI".data DEFAULT_GOAL DEFAULT_CONSTRAINTS) 1 rfl rfl

/-- C3: the pipeline passes `temperature` unchanged to the generate-stage and
oppose-stage calls and `max 0 (temperature - 0.2)` to the synthesize-stage
call (the call-temperature trace is a prefix of
`[temperature, temperature, max 0 (temperature - 0.2)]`, positionally); for
`temperature ∈ [0.2, 2]` the synthesize temperature equals
`temperature - 0.2`, and for `temperature ∈ [0, 0.2)` it equals `0`. -/
theorem C3_temperature_policy {σ ε : Type} (P : Provider σ ε)
    (topic goal constraints : Str) (temperature : ℚ) (s0 : σ) :
    ((run_stages topic goal constraints P temperature s0).2.1.map
        ProviderCall.temperature <+:
      [temperature, temperature, max 0 (temperature - 0.2)]) ∧
    ((0.2 : ℚ) ≤ temperature → temperature ≤ 2 →
      max 0 (temperature - 0.2) = temperature - 0.2) ∧
    (0 ≤ temperature → temperature < 0.2 → max 0 (temperature - 0.2) = 0) := by
  refine ⟨?_, fun h1 h2 => max_eq_right (by linarith), fun h1 h2 => max_eq_left (by linarith)⟩
  rcases e1 : P.complete (GEN_TEMPLATE topic goal constraints) temperature s0 with e | ⟨g, s1⟩
  · exact ⟨[temperature, max 0 (temperature - 0.2)], by simp [run_stages, e1]⟩
  · rcases e2 : P.complete (OPP_TEMPLATE g) temperature s1 with e | ⟨o, s2⟩
    · exact ⟨[max 0 (temperature - 0.2)], by simp [run_stages, e1, e2]⟩
    · rcases e3 : P.complete (SYN_TEMPLATE o) (max 0 (temperature - 0.2)) s2 with e | ⟨sy, s3⟩
      · exact ⟨[], by simp [run_stages, e1, e2, e3]⟩
      · exact ⟨[], by simp [run_stages, e1, e2, e3]⟩

/-- C3 witness: concrete runs at temperature 0.7 (clamp inactive) and the
clamp facts at 0.7 and 0.1. -/
theorem C3_temperature_policy_witness :
    ((run_stages "AI".data DEFAULT_GOAL DEFAULT_CONSTRAINTS
        (echoP : Provider Unit Unit) (0.7 : ℚ) ()).2.1.map ProviderCall.temperature <+:
      [(0.7 : ℚ), 0.7, max 0 (0.7 - 0.2)]) ∧
    max (0 : ℚ) (0.7 - 0.2) = 0.7 - 0.2 ∧
    max (0 : ℚ) (0.1 - 0.2) = 0 :=
  ⟨(C3_temperature_policy (echoP : Provider Unit Unit) "AI".data DEFAULT_GOAL
      DEFAULT_CONSTRAINTS 0.7 ()).1,
   (C3_temperature_policy (echoP : Provider Unit Unit) "AI".data DEFAULT_GOAL
      DEFAULT_CONSTRAINTS 0.7 ()).2.1 (by norm_num) (by norm_num),
   (C3_temperature_policy (echoP : Provider Unit Unit) "AI".data DEFAULT_GOAL
      DEFAULT_CONSTRAINTS 0.1 ()).2.2 (by norm_num) (by norm_num)⟩

/-- C6: on a successful run the pipeline returns exactly the dict
`{"generate": g, "oppose": o, "synthesize": sy}` where `g`, `o`, `sy` are the
raw strings returned by the three provider calls — three fixed keys, always
present, in that order, with values passed through unmodified. -/
theorem C6_result_dict_shape {σ ε : Type} (P : Provider σ ε)
    (topic goal constraints : Str) (temperature : ℚ) (s0 s1 s2 s3 : σ)
    (g o sy : Str)
    (h1 : P.complete (GEN_TEMPLATE topic goal constraints) temperature s0 =
      Except.ok (g, s1))
    (h2 : P.complete (OPP_TEMPLATE g) temperature s1 = Except.ok (o, s2))
    (h3 : P.complete (SYN_TEMPLATE o) (max 0 (temperature - 0.2)) s2 =
      Except.ok (sy, s3)) :
    (run_stages topic goal constraints P temperature s0).1 =
      Except.ok ⟨g, o, sy⟩ ∧
    resultDict ⟨g, o, sy⟩ =
      [("generate".data, g), ("oppose".data, o), ("synthesize".data, sy)] ∧
    (resultDict ⟨g, o, sy⟩).map Prod.fst =
      ["generate".data, "oppose".data, "synthesize".data] := by
  refine ⟨?_, rfl, rfl⟩
  simp [run_stages, h1, h2, h3]

/-- C6 witness: the echo stub at a concrete topic. -/
theorem C6_result_dict_shape_witness :
    (run_stages "AI".data DEFAULT_GOAL DEFAULT_CONSTRAINTS
        (echoP : Provider Unit Unit) (0.7 : ℚ) ()).1 =
      Except.ok ⟨GEN_TEMPLATE "AI".data DEFAULT_GOAL DEFAULT_CONSTRAINTS,
        OPP_TEMPLATE (GEN_TEMPLATE "AI".data DEFAULT_GOAL DEFAULT_CONSTRAINTS),
        SYN_TEMPLATE (OPP_TEMPLATE
          (GEN_TEMPLATE "AI".data DEFAULT_GOAL DEFAULT_CONSTRAINTS))⟩ ∧
    resultDict ⟨GEN_TEMPLATE "AI".data DEFAULT_GOAL DEFAULT_CONSTRAINTS,
        OPP_TEMPLATE (GEN_TEMPLATE "AI".data DEFAULT_GOAL DEFAULT_CONSTRAINTS),
        SYN_TEMPLATE (OPP_TEMPLATE
          (GEN_TEMPLATE "AI".data DEFAULT_GOAL DEFAULT_CONSTRAINTS))⟩ =
      [("generate".data, GEN_TEMPLATE "AI".data DEFAULT_GOAL DEFAULT_CONSTRAINTS),
       ("oppose".data,
        OPP_TEMPLATE (GEN_TEMPLATE "AI".data DEFAULT_GOAL DEFAULT_CONSTRAINTS)),
       ("synthesize".data,
        SYN_TEMPLATE (OPP_TEMPLATE
          (GEN_TEMPLATE "AI".data DEFAULT_GOAL DEFAULT_CONSTRAINTS)))] ∧
    (resultDict ⟨GEN_TEMPLATE "AI".data DEFAULT_GOAL DEFAULT_CONSTRAINTS,
        OPP_TEMPLATE (GEN_TEMPLATE "AI".data DEFAULT_GOAL DEFAULT_CONSTRAINTS),
        SYN_TEMPLATE (OPP_TEMPLATE
          (GEN_TEMPLATE "AI".data DEFAULT_GOAL DEFAULT_CONSTRAINTS))⟩).map Prod.fst =
      ["generate".data, "oppose".data, "synthesize".data] :=
  C6_result_dict_shape echoP "AI".data DEFAULT_GOAL DEFAULT_CONSTRAINTS 0.7
    () () () () _ _ _ rfl rfl rfl

/-- C7: when no provider is supplied, `run_trinity_loop` constructs a default
`OpenAIProvider` and uses it for all three stage calls — in a degraded
environment every stage output is exactly the corresponding
`OpenAIProvider.complete` completion (called with the declared default
`max_tokens = 800`); when a provider is supplied, that provider is the one
the three-stage chain runs with instead. -/
theorem C7_provider_selection {ε : Type} (env : Env ε) (hsdk : env.sdkOk = false)
    (topic goal constraints : Str) (temperature : ℚ) :
    (∃ g o sy : Str,
      OpenAIProvider.complete env (GEN_TEMPLATE topic goal constraints)
        temperature 800 = Except.ok g ∧
      OpenAIProvider.complete env (OPP_TEMPLATE g) temperature 800 = Except.ok o ∧
      OpenAIProvider.complete env (SYN_TEMPLATE o)
        (max 0 (temperature - 0.2)) 800 = Except.ok sy ∧
      (run_trinity_loop env topic goal constraints none temperature).1 =
        Except.ok [("generate".data, g), ("oppose".data, o),
          ("synthesize".data, sy)]) ∧
    (∀ inst : ProviderInst ε,
      run_trinity_loop env topic goal constraints (some inst) temperature =
        ((run_stages topic goal constraints inst.prov temperature inst.init).1.map
            resultDict,
         (run_stages topic goal constraints inst.prov temperature inst.init).2.1)) := by
  obtain ⟨ok, backend⟩ := env
  simp only at hsdk
  subst hsdk
  exact ⟨⟨_, _, _, rfl, rfl, rfl, rfl⟩, fun inst => rfl⟩

/-- C7 witness at a concrete degraded environment. -/
theorem C7_provider_selection_witness :
    ∃ g o sy : Str,
      OpenAIProvider.complete offlineEnvU
        (GEN_TEMPLATE "AI".data DEFAULT_GOAL DEFAULT_CONSTRAINTS)
        (0.7 : ℚ) 800 = Except.ok g ∧
      OpenAIProvider.complete offlineEnvU (OPP_TEMPLATE g) (0.7 : ℚ) 800 =
        Except.ok o ∧
      OpenAIProvider.complete offlineEnvU (SYN_TEMPLATE o)
        (max 0 ((0.7 : ℚ) - 0.2)) 800 = Except.ok sy ∧
      (run_trinity_loop offlineEnvU "AI".data DEFAULT_GOAL DEFAULT_CONSTRAINTS
          none (0.7 : ℚ)).1 =
        Except.ok [("generate".data, g), ("oppose".data, o),
          ("synthesize".data, sy)] :=
  (C7_provider_selection offlineEnvU rfl "AI".data DEFAULT_GOAL
    DEFAULT_CONSTRAINTS 0.7).1

/-- Helper for C8: if the observable outcome of each provider call is
independent of the provider's internal state, then the run's result and its
call trace do not depend on the starting state either. -/
theorem run_stages_output_state_free {σ ε : Type} (P : Provider σ ε)
    (hpure : ∀ p t s t2, outcome (P.complete p t s) = outcome (P.complete p t t2))
    (topic goal constraints : Str) (temperature : ℚ) (s s' : σ) :
    (run_stages topic goal constraints P temperature s).1 =
      (run_stages topic goal constraints P temperature s').1 ∧
    (run_stages topic goal constraints P temperature s).2.1 =
      (run_stages topic goal constraints P temperature s').2.1 := by
  have h1 := hpure (GEN_TEMPLATE topic goal constraints) temperature s s'
  rcases e1 : P.complete (GEN_TEMPLATE topic goal constraints) temperature s with
      e | ⟨g, s1⟩ <;>
    rcases e1' : P.complete (GEN_TEMPLATE topic goal constraints) temperature s' with
      e' | ⟨g', s1'⟩ <;>
    rw [e1, e1'] at h1 <;> simp [outcome] at h1
  · subst h1
    simp [run_stages, e1, e1']
  · subst h1
    have h2 := hpure (OPP_TEMPLATE g) temperature s1 s1'
    rcases e2 : P.complete (OPP_TEMPLATE g) temperature s1 with e | ⟨o, s2⟩ <;>
      rcases e2' : P.complete (OPP_TEMPLATE g) temperature s1' with e' | ⟨o', s2'⟩ <;>
      rw [e2, e2'] at h2 <;> simp [outcome] at h2
    · subst h2
      simp [run_stages, e1, e1', e2, e2']
    · subst h2
      have h3 := hpure (SYN_TEMPLATE o) (max 0 (temperature - 0.2)) s2 s2'
      rcases e3 : P.complete (SYN_TEMPLATE o) (max 0 (temperature - 0.2)) s2 with
          e | ⟨sy, s3⟩ <;>
        rcases e3' : P.complete (SYN_TEMPLATE o) (max 0 (temperature - 0.2)) s2' with
          e' | ⟨sy', s3'⟩ <;>
        rw [e3, e3'] at h3 <;> simp [outcome] at h3
      · subst h3
        simp [run_stages, e1, e1', e2, e2', e3, e3']
      · subst h3
        simp [run_stages, e1, e1', e2, e2', e3, e3']

/-- C8: with a provider whose per-call outcome is a pure function of its
prompt (and temperature), two consecutive `run` invocations with identical
inputs — the second starting from whatever provider state the first left
behind — produce identical results: the pipeline keeps no cross-call state of
its own. -/
theorem C8_no_hidden_state {σ ε : Type} (P : Provider σ ε)
    (hpure : ∀ p t s t2, outcome (P.complete p t s) = outcome (P.complete p t t2))
    (topic goal constraints : Str) (temperature : ℚ) (s0 : σ) :
    (runTwice topic goal constraints P temperature s0).1 =
      (runTwice topic goal constraints P temperature s0).2 :=
  (run_stages_output_state_free P hpure topic goal constraints temperature s0
    (run_stages topic goal constraints P temperature s0).2.2).1

/-- C8 witness: a call-counting echo stub (mutating state, pure output). -/
theorem C8_no_hidden_state_witness :
    (runTwice "AI".data DEFAULT_GOAL DEFAULT_CONSTRAINTS
        (countEcho : Provider Nat Unit) (0.7 : ℚ) 0).1 =
      (runTwice "AI".data DEFAULT_GOAL DEFAULT_CONSTRAINTS
        (countEcho : Provider Nat Unit) (0.7 : ℚ) 0).2 :=
  C8_no_hidden_state countEcho (fun _ _ _ _ => rfl) "AI".data DEFAULT_GOAL
    DEFAULT_CONSTRAINTS 0.7 0
